import Mathlib

/-!
Shallow embedding of the photoforge-ai credit accounting core.

Sources embedded:
- `lib/config/pricing.ts`: tier configuration, `calculateRollover`.
- `lib/services/credit-service.ts`: `CreditService` methods
  (`resetMonthlyCredits`, `updateUserTier`, `addAlaCarteCredits`,
  `deductCredits`, `refundCredits`, `getUsersNeedingReset`).
- the job-submission `POST` handler (reservation, job creation, queue
  dispatch, compensating refund) and the cron reset endpoint.

Modelling conventions:
- Credit amounts are embedded as `ℤ`; every operation the source
  performs on them (`+`, `-`, `Math.min`, `Math.max`, comparison) is
  exact on `ℤ`.
- Timestamps are integers counted in months: the source's "one calendar
  month" (`setMonth(getMonth() - 1)`) is one unit.
- The per-account database row plus the account's transaction rows form
  a `LedgerState`; each `prisma` update/create pair becomes a pure
  state-passing function. Transaction lists are newest-first (a
  `creditTransaction.create` prepends).
- Audit `description` strings are abbreviated: the source interpolates
  numbers into them, which no claim depends on.
- `calculateBatchCredits` and `hasEnoughCredits` are imported by the
  handler from `lib/pricing`, a file not present in the provided
  sources; they are modelled from the spec where marked.
-/

inductive TierName
  | free
  | starter
  | professional
  | enterprise
deriving DecidableEq

/-- Static tier configuration, from `PRICING_TIERS` in pricing.ts
(features/stripe ids omitted: no claim mentions them). -/
structure TierConfig where
  displayName : String
  monthlyPrice : Int
  monthlyCredits : Int
  rolloverCap : Int
deriving DecidableEq

/-- `getTierConfig` from pricing.ts: lookup in `PRICING_TIERS`. -/
def getTierConfig : TierName → TierConfig
  | .free => ⟨"Free", 0, 5, 0⟩
  | .starter => ⟨"Starter", 49, 100, 50⟩
  | .professional => ⟨"Professional", 149, 400, 200⟩
  | .enterprise => ⟨"Enterprise", 449, 2000, 500⟩

/-- `calculateRollover` from pricing.ts: unused = max(0, balance),
rollover = min(unused, cap), result = monthlyCredits + rollover. -/
def calculateRollover (currentBalance monthlyCredits rolloverCap : Int) : Int :=
  monthlyCredits + min (max 0 currentBalance) rolloverCap

/-- The credit-relevant columns of the `User` row. -/
structure Account where
  tier : TierName
  creditsBalance : Int
  monthlyCredits : Int
  rolloverCap : Int
  creditsUsedThisMonth : Int
  lastCreditReset : Int
deriving DecidableEq

/-- The `type` column of a `CreditTransaction` row. -/
inductive TxType
  | purchase
  | usage
  | refund
  | monthly_reset
  | tier_change
deriving DecidableEq

/-- A `CreditTransaction` row (id/createdAt omitted; append-only). -/
structure CreditTransaction where
  amount : Int
  txType : TxType
  jobId : Option String
  description : String
deriving DecidableEq

/-- One account's durable state: its `User` row and its transaction
rows, newest first. -/
structure LedgerState where
  account : Account
  txs : List CreditTransaction
deriving DecidableEq

/-- Return shape of `CreditService.deductCredits`. -/
structure DeductResult where
  success : Bool
  newBalance : Int
  insufficientCredits : Bool
deriving DecidableEq

/-- `CreditService.deductCredits`: read the row; if `creditsBalance <
amount` return failure with the current balance and mutate nothing;
otherwise write balance − amount and usedThisMonth + amount and create
a `usage` transaction of `-amount` tagged with the jobId. -/
def deductCredits (s : LedgerState) (amount : Int) (jobId : String)
    (description : String) : DeductResult × LedgerState :=
  let user := s.account
  if user.creditsBalance < amount then
    (⟨false, user.creditsBalance, true⟩, s)
  else
    let newBalance := user.creditsBalance - amount
    let newUsedThisMonth := user.creditsUsedThisMonth + amount
    (⟨true, newBalance, false⟩,
      ⟨{ user with
          creditsBalance := newBalance,
          creditsUsedThisMonth := newUsedThisMonth },
        ⟨-amount, TxType.usage, some jobId, description⟩ :: s.txs⟩)

/-- `CreditService.refundCredits`: write balance + amount and
`max(0, usedThisMonth − amount)` and create a `refund` transaction of
`+amount` tagged with the jobId. Never fails. -/
def refundCredits (s : LedgerState) (amount : Int) (jobId : String)
    (reason : String) : LedgerState :=
  let user := s.account
  let newBalance := user.creditsBalance + amount
  let newUsedThisMonth := max 0 (user.creditsUsedThisMonth - amount)
  ⟨{ user with
      creditsBalance := newBalance,
      creditsUsedThisMonth := newUsedThisMonth },
    ⟨amount, TxType.refund, some jobId, "Credit refund: " ++ reason⟩ :: s.txs⟩

/-- Return shape of `CreditService.resetMonthlyCredits`. -/
structure ResetResult where
  success : Bool
  previousBalance : Int
  newBalance : Int
  rolledOverAmount : Int
  monthlyCredits : Int
deriving DecidableEq

/-- `CreditService.resetMonthlyCredits` at time `now`: new balance is
`calculateRollover previousBalance cfg.monthlyCredits cfg.rolloverCap`
for the account's tier config `cfg`; usedThisMonth becomes 0,
lastCreditReset becomes `now`, the monthlyCredits/rolloverCap snapshot
is refreshed from the tier, and one `monthly_reset` transaction of
amount `cfg.monthlyCredits` is created. -/
def resetMonthlyCredits (s : LedgerState) (now : Int) :
    ResetResult × LedgerState :=
  let user := s.account
  let tierConfig := getTierConfig user.tier
  let previousBalance := user.creditsBalance
  let newBalance := calculateRollover previousBalance
    tierConfig.monthlyCredits tierConfig.rolloverCap
  let rolledOverAmount := min (max 0 previousBalance) tierConfig.rolloverCap
  (⟨true, previousBalance, newBalance, rolledOverAmount,
      tierConfig.monthlyCredits⟩,
    ⟨{ user with
        creditsBalance := newBalance,
        creditsUsedThisMonth := 0,
        lastCreditReset := now,
        monthlyCredits := tierConfig.monthlyCredits,
        rolloverCap := tierConfig.rolloverCap },
      ⟨tierConfig.monthlyCredits, TxType.monthly_reset, none,
        "Monthly credit reset"⟩ :: s.txs⟩)

/-- `CreditService.updateUserTier`: write tier and the
monthlyCredits/rolloverCap snapshot from the new tier's config and
create a zero-amount `tier_change` transaction. -/
def updateUserTier (s : LedgerState) (newTier : TierName) : LedgerState :=
  let tierConfig := getTierConfig newTier
  ⟨{ s.account with
      tier := newTier,
      monthlyCredits := tierConfig.monthlyCredits,
      rolloverCap := tierConfig.rolloverCap },
    ⟨0, TxType.tier_change, none,
      "Tier updated to " ++ tierConfig.displayName⟩ :: s.txs⟩

/-- `CreditService.addAlaCarteCredits`: write balance + credits and
create a `purchase` transaction of `+credits`. -/
def addAlaCarteCredits (s : LedgerState) (credits : Int)
    (stripePaymentIntentId : String) : LedgerState :=
  let newBalance := s.account.creditsBalance + credits
  ⟨{ s.account with creditsBalance := newBalance },
    ⟨credits, TxType.purchase, none,
      "A la carte purchase (Payment: " ++ stripePaymentIntentId ++ ")"⟩
      :: s.txs⟩

/-- The selection predicate of `CreditService.getUsersNeedingReset`:
`lastCreditReset ≤ now − 1 month` and tier is not free. -/
def needsReset (now : Int) (a : Account) : Bool :=
  decide (a.lastCreditReset ≤ now - 1) && (a.tier != TierName.free)

/-- One account's view of the cron reset endpoint: the endpoint resets
exactly the accounts returned by `getUsersNeedingReset`. -/
def runResetFor (now : Int) (s : LedgerState) : LedgerState :=
  if needsReset now s.account then (resetMonthlyCredits s now).2 else s

/-- Modelled from the spec: `calculateBatchCredits` lives in
`lib/pricing`, which is absent from the provided sources (only its call
site in the submission handler is present). The spec describes it as a
volume-discount schedule over breakpoints — "base per-unit cost with
declining marginal rate past defined thresholds" — without fixing the
breakpoints. `batchMarginal i` is the marginal cost of the i-th image:
4 credits each for the first 10 images, 3 for images 11–30, 2 beyond. -/
def batchMarginal (i : Nat) : Int :=
  if i ≤ 10 then 4 else if i ≤ 30 then 3 else 2

/-- Modelled from the spec: total cost of a batch of `quantity` images
is the sum of the per-image marginal rates. -/
def calculateBatchCredits (quantity : Nat) : Int :=
  ∑ i ∈ Finset.Icc 1 quantity, batchMarginal i

/-- Modelled from the spec: `hasEnoughCredits` from `lib/pricing`
(absent from the provided sources) is the pure predicate
`balance ≥ required`, used only as an optimistic pre-check. -/
def hasEnoughCredits (balance required : Int) : Bool :=
  decide (required ≤ balance)

/-- Whitespace as trimmed by the source's prompt check. -/
def isWhitespaceChar (c : Char) : Bool :=
  c = ' ' || c = '\t' || c = '\n' || c = '\r'

/-- The handler's blank-prompt condition
`!backgroundPrompt || backgroundPrompt.trim().length === 0`: a string
trims to empty exactly when every character is whitespace (the empty
string — the falsy case — included). -/
def promptIsBlank (backgroundPrompt : String) : Bool :=
  backgroundPrompt.toList.all isWhitespaceChar

/-- The `status` column of a `Job` row. -/
inductive JobStatus
  | pending
  | queued
  | processing
  | completed
  | failed
deriving DecidableEq

/-- The claim-relevant columns of a `Job` row. -/
structure Job where
  id : String
  status : JobStatus
  creditsReserved : Int
  creditsConsumed : Int
  errorMessage : Option String
deriving DecidableEq

/-- Outcome of the submission handler: HTTP status code, the `Job` row
as the handler leaves it (if one was created), and the ledger state. -/
structure SubmitResponse where
  status : Nat
  job : Option Job
  state : LedgerState
deriving DecidableEq

/-- The job-submission `POST` handler, from validation onward, for the
authenticated account `s` (auth and storage upload are external
collaborators; `queueOk` is whether `queueService.addJob` succeeds,
`jobId` stands for `crypto.randomUUID()`). Mirrors the source order:
validation (400s), optimistic credit check (402), `deductCredits`
(402 on failure), job creation with status `pending`, queue dispatch;
on dispatch failure: `refundCredits` of the reserved total, job set to
`failed` with an error message, and a 500 response. -/
def submitJob (s : LedgerState) (imageCount : Nat) (backgroundPrompt : String)
    (jobId : String) (queueOk : Bool) : SubmitResponse :=
  if imageCount = 0 then ⟨400, none, s⟩
  else if promptIsBlank backgroundPrompt then ⟨400, none, s⟩
  else if 100 < imageCount then ⟨400, none, s⟩
  else
    let totalCredits := calculateBatchCredits imageCount
    if !hasEnoughCredits s.account.creditsBalance totalCredits then
      ⟨402, none, s⟩
    else
      let deduct := deductCredits s totalCredits jobId "Reserved credits"
      if !deduct.1.success then ⟨402, none, deduct.2⟩
      else
        let job : Job := ⟨jobId, JobStatus.pending, totalCredits, 0, none⟩
        if queueOk then ⟨201, some job, deduct.2⟩
        else
          let refunded := refundCredits deduct.2 totalCredits jobId
            "Failed to queue job for processing"
          ⟨500,
            some { job with
                status := JobStatus.failed,
                errorMessage := some "Failed to queue job for processing" },
            refunded⟩

/-- A ledger operation on one account, as invoked by the service's
callers. -/
inductive LedgerOp
  | reserveOp (amount : Int) (jobId : String) (description : String)
  | refundOp (amount : Int) (jobId : String) (reason : String)
  | purchaseOp (credits : Int) (stripePaymentIntentId : String)
  | resetOp (now : Int)
  | tierOp (newTier : TierName)
deriving DecidableEq

/-- Apply one ledger operation (dropping returned values). -/
def applyOp (s : LedgerState) : LedgerOp → LedgerState
  | .reserveOp amount jobId description =>
      (deductCredits s amount jobId description).2
  | .refundOp amount jobId reason => refundCredits s amount jobId reason
  | .purchaseOp credits ref => addAlaCarteCredits s credits ref
  | .resetOp now => (resetMonthlyCredits s now).2
  | .tierOp newTier => updateUserTier s newTier

/-- Run a sequence of ledger operations in order. -/
def runOps (s : LedgerState) : List LedgerOp → LedgerState
  | [] => s
  | op :: rest => runOps (applyOp s op) rest

/-- Sum of the signed amounts of all recorded transactions. -/
def txSum (s : LedgerState) : Int :=
  (s.txs.map CreditTransaction.amount).sum

/-- The ledger-sum invariant: balance equals the sum of recorded
transaction amounts (zero initial grant). -/
def ledgerInvariant (s : LedgerState) : Prop :=
  s.account.creditsBalance = txSum s

instance (s : LedgerState) : Decidable (ledgerInvariant s) := by
  unfold ledgerInvariant
  infer_instance

/-- A monthly reset records a transaction of `monthlyCredits` while
changing the balance by `monthlyCredits + rollover − previousBalance`;
the two agree exactly when the rollover is not clamped, i.e. when
`0 ≤ balance ≤ rolloverCap` at the moment of the reset. -/
def resetSafe (s : LedgerState) : LedgerOp → Bool
  | .resetOp _ =>
      decide (0 ≤ s.account.creditsBalance) &&
        decide (s.account.creditsBalance ≤ (getTierConfig s.account.tier).rolloverCap)
  | _ => true

/-- Every reset in the sequence happens at a state whose balance is
within `[0, rolloverCap]`. -/
def safeOps (s : LedgerState) : List LedgerOp → Bool
  | [] => true
  | op :: rest => resetSafe s op && safeOps (applyOp s op) rest

/-- Progress of one in-flight `deductCredits` call in the two-phase
(read, then check-and-write) shape the source has: `prisma.findUnique`
reads the row, then the balance check and `prisma.update` both use
that possibly stale snapshot. -/
inductive ThreadPhase
  | ready
  | readDone (snapBalance snapUsed : Int)
  | finished (success : Bool)
deriving DecidableEq

/-- One step of an in-flight `deductCredits` call against the shared
state: from `ready`, perform the read; from `readDone`, perform the
check against the snapshot and, if it passes, the write computed from
the snapshot. -/
def stepDeduct (amount : Int) (jobId : String) (shared : LedgerState) :
    ThreadPhase → ThreadPhase × LedgerState
  | .ready =>
      (.readDone shared.account.creditsBalance
        shared.account.creditsUsedThisMonth, shared)
  | .readDone snapBalance snapUsed =>
      if snapBalance < amount then (.finished false, shared)
      else
        (.finished true,
          ⟨{ shared.account with
              creditsBalance := snapBalance - amount,
              creditsUsedThisMonth := snapUsed + amount },
            ⟨-amount, TxType.usage, some jobId, "usage"⟩ :: shared.txs⟩)
  | .finished b => (.finished b, shared)

/-- Two concurrent `deductCredits` calls A and B on the same account. -/
structure ConcState where
  shared : LedgerState
  threadA : ThreadPhase
  threadB : ThreadPhase
deriving DecidableEq

/-- Run one scheduler choice: `false` steps call A, `true` steps B. -/
def schedStep (amountA amountB : Int) (jobA jobB : String) (c : ConcState)
    (pickB : Bool) : ConcState :=
  if pickB then
    let r := stepDeduct amountB jobB c.shared c.threadB
    ⟨r.2, c.threadA, r.1⟩
  else
    let r := stepDeduct amountA jobA c.shared c.threadA
    ⟨r.2, r.1, c.threadB⟩

/-- Run an interleaving schedule of the two concurrent calls. -/
def runSched (amountA amountB : Int) (jobA jobB : String) (c : ConcState) :
    List Bool → ConcState
  | [] => c
  | pick :: rest =>
      runSched amountA amountB jobA jobB
        (schedStep amountA amountB jobA jobB c pick) rest


/-- A starter-tier account state used by concrete witnesses: given
balance and usedThisMonth, last reset at time 0, empty transaction
log. -/
def starterState (balance used : Int) : LedgerState :=
  ⟨⟨.starter, balance, 100, 50, used, 0⟩, []⟩

/-- Claim C1: for every account and amount > 0, reserve
(`deductCredits`) succeeds iff the balance is at least the amount; on
success it decrements the balance by the amount, increments
creditsUsedThisMonth by the amount, and appends a `usage` transaction
of `-amount` tagged with the jobId; on failure it returns the current
balance and performs no mutation. -/
theorem claim_C1_reserve_behavior (s : LedgerState) (amount : Int)
    (jobId description : String) (hpos : 0 < amount) :
    ((deductCredits s amount jobId description).1.success = true ↔
        amount ≤ s.account.creditsBalance) ∧
    ((deductCredits s amount jobId description).1.success = true →
      (deductCredits s amount jobId description).2.account.creditsBalance
          = s.account.creditsBalance - amount ∧
      (deductCredits s amount jobId description).1.newBalance
          = s.account.creditsBalance - amount ∧
      (deductCredits s amount jobId description).2.account.creditsUsedThisMonth
          = s.account.creditsUsedThisMonth + amount ∧
      (deductCredits s amount jobId description).2.txs
          = ⟨-amount, TxType.usage, some jobId, description⟩ :: s.txs) ∧
    ((deductCredits s amount jobId description).1.success = false →
      (deductCredits s amount jobId description).1.newBalance
          = s.account.creditsBalance ∧
      (deductCredits s amount jobId description).2 = s) := by
  simp only [deductCredits]
  split_ifs with h <;> simp_all

theorem claim_C1_witness :
    0 < (25 : Int) ∧
    (((deductCredits (starterState 100 0) 25 "job-1" "d").1.success = true ↔
        (25 : Int) ≤ (starterState 100 0).account.creditsBalance) ∧
    ((deductCredits (starterState 100 0) 25 "job-1" "d").1.success = true →
      (deductCredits (starterState 100 0) 25 "job-1" "d").2.account.creditsBalance
          = (starterState 100 0).account.creditsBalance - 25 ∧
      (deductCredits (starterState 100 0) 25 "job-1" "d").1.newBalance
          = (starterState 100 0).account.creditsBalance - 25 ∧
      (deductCredits (starterState 100 0) 25 "job-1" "d").2.account.creditsUsedThisMonth
          = (starterState 100 0).account.creditsUsedThisMonth + 25 ∧
      (deductCredits (starterState 100 0) 25 "job-1" "d").2.txs
          = ⟨-25, TxType.usage, some "job-1", "d"⟩ :: (starterState 100 0).txs) ∧
    ((deductCredits (starterState 100 0) 25 "job-1" "d").1.success = false →
      (deductCredits (starterState 100 0) 25 "job-1" "d").1.newBalance
          = (starterState 100 0).account.creditsBalance ∧
      (deductCredits (starterState 100 0) 25 "job-1" "d").2 = starterState 100 0)) :=
  ⟨by decide, claim_C1_reserve_behavior (starterState 100 0) 25 "job-1" "d" (by decide)⟩

/-- Claim C5: for every account and amount > 0, refund
(`refundCredits`) increments the balance by the amount, sets
creditsUsedThisMonth to `max(0, usedThisMonth − amount)` — floored at
zero, never negative — and appends a `refund` transaction of `+amount`
tagged with the jobId; it succeeds (clamping rather than failing) even
when usedThisMonth is already below the amount. -/
theorem claim_C5_refund_behavior (s : LedgerState) (amount : Int)
    (jobId reason : String) (hpos : 0 < amount) :
    (refundCredits s amount jobId reason).account.creditsBalance
        = s.account.creditsBalance + amount ∧
    (refundCredits s amount jobId reason).account.creditsUsedThisMonth
        = max 0 (s.account.creditsUsedThisMonth - amount) ∧
    0 ≤ (refundCredits s amount jobId reason).account.creditsUsedThisMonth ∧
    (refundCredits s amount jobId reason).txs
        = ⟨amount, TxType.refund, some jobId, "Credit refund: " ++ reason⟩
            :: s.txs := by
  refine ⟨rfl, rfl, ?_, rfl⟩
  simp [refundCredits]

theorem claim_C5_witness :
    0 < (25 : Int) ∧
    ((refundCredits (starterState 100 5) 25 "job-1" "r").account.creditsBalance
        = (starterState 100 5).account.creditsBalance + 25 ∧
    (refundCredits (starterState 100 5) 25 "job-1" "r").account.creditsUsedThisMonth
        = max 0 ((starterState 100 5).account.creditsUsedThisMonth - 25) ∧
    0 ≤ (refundCredits (starterState 100 5) 25 "job-1" "r").account.creditsUsedThisMonth ∧
    (refundCredits (starterState 100 5) 25 "job-1" "r").txs
        = ⟨25, TxType.refund, some "job-1", "Credit refund: " ++ "r"⟩
            :: (starterState 100 5).txs) :=
  ⟨by decide, claim_C5_refund_behavior (starterState 100 5) 25 "job-1" "r" (by decide)⟩

/-- Claim C6: for every account state with the data model's
`creditsUsedThisMonth ≥ 0` invariant and every amount > 0 for which
the reserve succeeds, `deductCredits` of that amount followed by
`refundCredits` of the same amount restores both the balance and
creditsUsedThisMonth to exactly their values before the reserve. -/
theorem claim_C6_reserve_refund_inverse (s : LedgerState) (amount : Int)
    (jobId description reason : String) (hpos : 0 < amount)
    (hused : 0 ≤ s.account.creditsUsedThisMonth)
    (hok : (deductCredits s amount jobId description).1.success = true) :
    (refundCredits (deductCredits s amount jobId description).2 amount jobId
        reason).account.creditsBalance = s.account.creditsBalance ∧
    (refundCredits (deductCredits s amount jobId description).2 amount jobId
        reason).account.creditsUsedThisMonth
        = s.account.creditsUsedThisMonth := by
  have h : ¬ s.account.creditsBalance < amount := by
    intro hc
    simp [deductCredits, hc] at hok
  simp [deductCredits, refundCredits, h]
  omega

theorem claim_C6_witness :
    0 < (25 : Int) ∧
    0 ≤ (starterState 100 5).account.creditsUsedThisMonth ∧
    (deductCredits (starterState 100 5) 25 "job-1" "d").1.success = true ∧
    ((refundCredits (deductCredits (starterState 100 5) 25 "job-1" "d").2 25 "job-1"
        "r").account.creditsBalance = (starterState 100 5).account.creditsBalance ∧
    (refundCredits (deductCredits (starterState 100 5) 25 "job-1" "d").2 25 "job-1"
        "r").account.creditsUsedThisMonth
        = (starterState 100 5).account.creditsUsedThisMonth) :=
  ⟨by decide, by decide, by decide,
    claim_C6_reserve_refund_inverse (starterState 100 5) 25 "job-1" "d" "r"
      (by decide) (by decide) (by decide)⟩

/-- Claim C10: for every account and tier, `updateUserTier` changes
only the tier, monthlyCredits and rolloverCap fields and appends a
zero-amount `tier_change` transaction; creditsBalance,
creditsUsedThisMonth and lastCreditReset are left unchanged. -/
theorem claim_C10_tier_change_frame (s : LedgerState) (newTier : TierName) :
    (updateUserTier s newTier).account.tier = newTier ∧
    (updateUserTier s newTier).account.monthlyCredits
        = (getTierConfig newTier).monthlyCredits ∧
    (updateUserTier s newTier).account.rolloverCap
        = (getTierConfig newTier).rolloverCap ∧
    (updateUserTier s newTier).account.creditsBalance
        = s.account.creditsBalance ∧
    (updateUserTier s newTier).account.creditsUsedThisMonth
        = s.account.creditsUsedThisMonth ∧
    (updateUserTier s newTier).account.lastCreditReset
        = s.account.lastCreditReset ∧
    (updateUserTier s newTier).txs
        = ⟨0, TxType.tier_change, none,
            "Tier updated to " ++ (getTierConfig newTier).displayName⟩
            :: s.txs :=
  ⟨rfl, rfl, rfl, rfl, rfl, rfl, rfl⟩

/-- Claim C3: for every account, `resetMonthlyCredits` computes
rollover = min(max(previousBalance, 0), rolloverCap) and sets the new
balance to monthlyCredits + rollover (monthlyCredits/rolloverCap taken
from the account's tier config), sets creditsUsedThisMonth to 0, sets
lastCreditReset to the current time, and appends exactly one
`monthly_reset` transaction of amount monthlyCredits; in particular,
with balance=10, monthlyCredits=100, rolloverCap=50 the new balance is
110, and with balance=80, rolloverCap=50 the rollover is capped at 50
giving a new balance of 150. -/
theorem claim_C3_reset_formula (s : LedgerState) (now : Int) :
    ((resetMonthlyCredits s now).2.account.creditsBalance
        = (getTierConfig s.account.tier).monthlyCredits +
            min (max s.account.creditsBalance 0)
              (getTierConfig s.account.tier).rolloverCap ∧
      (resetMonthlyCredits s now).1.newBalance
        = (resetMonthlyCredits s now).2.account.creditsBalance ∧
      (resetMonthlyCredits s now).1.rolledOverAmount
        = min (max s.account.creditsBalance 0)
            (getTierConfig s.account.tier).rolloverCap ∧
      (resetMonthlyCredits s now).2.account.creditsUsedThisMonth = 0 ∧
      (resetMonthlyCredits s now).2.account.lastCreditReset = now ∧
      (resetMonthlyCredits s now).2.txs
        = ⟨(getTierConfig s.account.tier).monthlyCredits,
            TxType.monthly_reset, none, "Monthly credit reset"⟩ :: s.txs) ∧
    (resetMonthlyCredits (starterState 10 0) 0).2.account.creditsBalance = 110 ∧
    (resetMonthlyCredits (starterState 80 0) 0).2.account.creditsBalance = 150 := by
  refine ⟨⟨?_, ?_, ?_, rfl, rfl, rfl⟩, by decide, by decide⟩
  all_goals simp [resetMonthlyCredits, calculateRollover]
  all_goals omega

/-- Claim C2 evidence: the source's `deductCredits` is a
check-then-write — `prisma.user.findUnique` reads the balance, the
comparison and `prisma.user.update` both use that snapshot — so in the
interleaving read-A, read-B, write-A, write-B of two concurrent calls
of 60 credits each against a balance of 100, both calls report
success, their combined amount 120 exceeds the starting balance 100,
and the final balance is 40 (B's write clobbers A's). -/
theorem claim_C2_concurrent_overdraft :
    (runSched 60 60 "job-a" "job-b" ⟨starterState 100 0, .ready, .ready⟩
        [false, true, false, true]).threadA = ThreadPhase.finished true ∧
    (runSched 60 60 "job-a" "job-b" ⟨starterState 100 0, .ready, .ready⟩
        [false, true, false, true]).threadB = ThreadPhase.finished true ∧
    (starterState 100 0).account.creditsBalance < 60 + 60 ∧
    (runSched 60 60 "job-a" "job-b" ⟨starterState 100 0, .ready, .ready⟩
        [false, true, false, true]).shared.account.creditsBalance = 40 := by
  decide

/-- Claim C8 counterexample: invoking `resetMonthlyCredits` twice in
direct succession (same window) re-grants the allocation: a starter
account with balance 10 goes to 110 after the first invocation and to
150 after the second, and the log then holds two `monthly_reset`
transactions. -/
theorem claim_C8_counterexample :
    (resetMonthlyCredits (resetMonthlyCredits (starterState 10 0) 5).2
          5).2.account.creditsBalance
      ≠ (resetMonthlyCredits (starterState 10 0) 5).2.account.creditsBalance ∧
    (resetMonthlyCredits (resetMonthlyCredits (starterState 10 0) 5).2
          5).2.account.creditsBalance = 150 ∧
    ((resetMonthlyCredits (resetMonthlyCredits (starterState 10 0) 5).2
          5).2.txs.countP (fun t => t.txType == TxType.monthly_reset)) = 2 := by
  decide

/-- Claim C8 (amended): `resetMonthlyCredits` itself is not idempotent
— a direct second invocation re-grants — but the scheduler path is:
a reset at time `now` sets lastCreditReset to `now`, so the cron
selection (`getUsersNeedingReset`, which requires
lastCreditReset ≤ t − 1 month) excludes the account at every time `t`
within the same window (`t ≤ now`), and a second scheduler-driven run
performs no reset and leaves the account unchanged. -/
theorem claim_C8_scheduler_idempotent (s : LedgerState) (now t : Int)
    (hwin : t ≤ now) :
    runResetFor t (resetMonthlyCredits s now).2 = (resetMonthlyCredits s now).2 := by
  have hd : ((resetMonthlyCredits s now).2.account.lastCreditReset ≤ t - 1)
      = False := by
    simp only [resetMonthlyCredits, eq_iff_iff, iff_false, not_le]
    omega
  simp [runResetFor, needsReset, hd]

theorem claim_C8_witness :
    (5 : Int) ≤ 5 ∧
    runResetFor 5 (resetMonthlyCredits (starterState 10 0) 5).2
        = (resetMonthlyCredits (starterState 10 0) 5).2 :=
  ⟨by decide, claim_C8_scheduler_idempotent (starterState 10 0) 5 5 (by decide)⟩

/-- Each single ledger operation preserves the ledger-sum invariant,
provided a monthly reset only happens at a state whose balance lies in
`[0, rolloverCap]` (otherwise the reset's recorded amount
`monthlyCredits` differs from its balance delta). -/
theorem applyOp_preserves_invariant (s : LedgerState) (op : LedgerOp)
    (hsafe : resetSafe s op = true) (hinv : ledgerInvariant s) :
    ledgerInvariant (applyOp s op) := by
  cases op with
  | reserveOp amount jobId description =>
      simp only [applyOp, deductCredits]
      split_ifs with h
      · exact hinv
      · simp only [ledgerInvariant, txSum, List.map_cons, List.sum_cons] at *
        omega
  | refundOp amount jobId reason =>
      simp only [applyOp, refundCredits, ledgerInvariant, txSum,
        List.map_cons, List.sum_cons] at *
      omega
  | purchaseOp credits ref =>
      simp only [applyOp, addAlaCarteCredits, ledgerInvariant, txSum,
        List.map_cons, List.sum_cons] at *
      omega
  | resetOp now =>
      simp only [resetSafe, Bool.and_eq_true, decide_eq_true_eq] at hsafe
      simp only [applyOp, resetMonthlyCredits, calculateRollover,
        ledgerInvariant, txSum, List.map_cons, List.sum_cons] at *
      omega
  | tierOp newTier =>
      simp only [applyOp, updateUserTier, ledgerInvariant, txSum,
        List.map_cons, List.sum_cons] at *
      omega

/-- Claim C4 (amended): for every account and every sequence of ledger
operations (reserve, refund, purchase, monthly reset, tier change)
starting from a state satisfying the invariant (e.g. a zero initial
grant), the balance equals the sum of the signed amounts of all
recorded transactions, provided every monthly reset in the sequence
occurs at a state whose balance lies within `[0, rolloverCap]`; a
reset with a clamped rollover breaks the equality (see the
counterexample). -/
theorem claim_C4_ledger_sum_invariant (s : LedgerState) (ops : List LedgerOp)
    (hinv : ledgerInvariant s) (hsafe : safeOps s ops = true) :
    ledgerInvariant (runOps s ops) := by
  induction ops generalizing s with
  | nil => exact hinv
  | cons op rest ih =>
      simp only [safeOps, Bool.and_eq_true] at hsafe
      simp only [runOps]
      exact ih (applyOp s op)
        (applyOp_preserves_invariant s op hsafe.1 hinv) hsafe.2

/-- Claim C4 counterexample: from a zero initial grant, purchase 80
credits (balance 80, transaction sum 80), then run a monthly reset on
the starter tier (monthlyCredits 100, rolloverCap 50): rollover is
clamped to 50, so the balance becomes 150 while the recorded
transactions sum to 180 — the claimed invariant fails. -/
theorem claim_C4_counterexample :
    ¬ ledgerInvariant
        (runOps (starterState 0 0)
          [LedgerOp.purchaseOp 80 "pay-1", LedgerOp.resetOp 1]) ∧
    (runOps (starterState 0 0)
        [LedgerOp.purchaseOp 80 "pay-1", LedgerOp.resetOp 1]).account.creditsBalance
      = 150 ∧
    txSum (runOps (starterState 0 0)
        [LedgerOp.purchaseOp 80 "pay-1", LedgerOp.resetOp 1]) = 180 := by
  decide

theorem claim_C4_witness :
    ledgerInvariant (starterState 0 0) ∧
    safeOps (starterState 0 0)
        [LedgerOp.purchaseOp 30 "pay-1", LedgerOp.reserveOp 25 "job-1" "d",
          LedgerOp.refundOp 25 "job-1" "r", LedgerOp.resetOp 1,
          LedgerOp.tierOp TierName.professional] = true ∧
    ledgerInvariant
      (runOps (starterState 0 0)
        [LedgerOp.purchaseOp 30 "pay-1", LedgerOp.reserveOp 25 "job-1" "d",
          LedgerOp.refundOp 25 "job-1" "r", LedgerOp.resetOp 1,
          LedgerOp.tierOp TierName.professional]) :=
  ⟨by decide, by decide,
    claim_C4_ledger_sum_invariant (starterState 0 0)
      [LedgerOp.purchaseOp 30 "pay-1", LedgerOp.reserveOp 25 "job-1" "d",
        LedgerOp.refundOp 25 "job-1" "r", LedgerOp.resetOp 1,
        LedgerOp.tierOp TierName.professional] (by decide) (by decide)⟩

/-- Claim C7: for every submitted job that passes validation and whose
credit reservation succeeds, if the queue dispatch fails the handler
refunds the full reserved amount via a `refund` transaction tagged
with that jobId, sets the job's status to `failed` with an error
message, returns a 500 dispatch error, and leaves the balance at its
pre-submission value — no credits remain reserved against a job that
was never queued. -/
theorem claim_C7_dispatch_failure_compensation (s : LedgerState)
    (imageCount : Nat) (backgroundPrompt jobId : String)
    (h1 : imageCount ≠ 0) (h2 : promptIsBlank backgroundPrompt = false)
    (h3 : ¬ 100 < imageCount)
    (h4 : calculateBatchCredits imageCount ≤ s.account.creditsBalance) :
    (submitJob s imageCount backgroundPrompt jobId false).status = 500 ∧
    (submitJob s imageCount backgroundPrompt jobId false).job
        = some ⟨jobId, JobStatus.failed, calculateBatchCredits imageCount, 0,
            some "Failed to queue job for processing"⟩ ∧
    (submitJob s imageCount backgroundPrompt jobId false).state.account.creditsBalance
        = s.account.creditsBalance ∧
    (submitJob s imageCount backgroundPrompt jobId false).state.txs
        = ⟨calculateBatchCredits imageCount, TxType.refund, some jobId,
            "Credit refund: " ++ "Failed to queue job for processing"⟩ ::
          ⟨-(calculateBatchCredits imageCount), TxType.usage, some jobId,
            "Reserved credits"⟩ :: s.txs := by
  have hd : ¬ s.account.creditsBalance < calculateBatchCredits imageCount := by
    omega
  simp [submitJob, h1, h2, h3, hasEnoughCredits, h4, deductCredits, hd,
    refundCredits]

theorem claim_C7_witness :
    (3 : Nat) ≠ 0 ∧
    promptIsBlank "studio" = false ∧
    ¬ (100 : Nat) < 3 ∧
    calculateBatchCredits 3 ≤ (starterState 100 0).account.creditsBalance ∧
    ((submitJob (starterState 100 0) 3 "studio" "job-1" false).status = 500 ∧
    (submitJob (starterState 100 0) 3 "studio" "job-1" false).job
        = some ⟨"job-1", JobStatus.failed, calculateBatchCredits 3, 0,
            some "Failed to queue job for processing"⟩ ∧
    (submitJob (starterState 100 0) 3 "studio" "job-1" false).state.account.creditsBalance
        = (starterState 100 0).account.creditsBalance ∧
    (submitJob (starterState 100 0) 3 "studio" "job-1" false).state.txs
        = ⟨calculateBatchCredits 3, TxType.refund, some "job-1",
            "Credit refund: " ++ "Failed to queue job for processing"⟩ ::
          ⟨-(calculateBatchCredits 3), TxType.usage, some "job-1",
            "Reserved credits"⟩ :: (starterState 100 0).txs) :=
  ⟨by decide, by decide, by decide, by decide,
    claim_C7_dispatch_failure_compensation (starterState 100 0) 3 "studio"
      "job-1" (by decide) (by decide) (by decide) (by decide)⟩

theorem batchMarginal_pos (i : Nat) : 0 < batchMarginal i := by
  unfold batchMarginal
  split_ifs <;> norm_num

theorem batchMarginal_antitone {i j : Nat} (h : i ≤ j) :
    batchMarginal j ≤ batchMarginal i := by
  unfold batchMarginal
  split_ifs <;> omega

theorem calculateBatchCredits_le_of_le {q1 q2 : Nat} (h : q1 ≤ q2) :
    calculateBatchCredits q1 ≤ calculateBatchCredits q2 := by
  unfold calculateBatchCredits
  apply Finset.sum_le_sum_of_subset_of_nonneg (Finset.Icc_subset_Icc_right h)
  intro i _ _
  exact (batchMarginal_pos i).le

theorem mul_le_calculateBatchCredits (q : Nat) (c : Int)
    (h : ∀ i ∈ Finset.Icc 1 q, c ≤ batchMarginal i) :
    (q : Int) * c ≤ calculateBatchCredits q := by
  have hs := Finset.card_nsmul_le_sum (Finset.Icc 1 q) batchMarginal c h
  rw [Nat.card_Icc] at hs
  simpa [nsmul_eq_mul] using hs

theorem calculateBatchCredits_cross (q1 q2 : Nat) (h1 : 0 < q1)
    (h12 : q1 ≤ q2) :
    (q1 : Int) * calculateBatchCredits q2
      ≤ (q2 : Int) * calculateBatchCredits q1 := by
  induction q2, h12 using Nat.le_induction with
  | base => exact le_refl _
  | succ n hn ih =>
      have hsum : calculateBatchCredits (n + 1)
          = calculateBatchCredits n + batchMarginal (n + 1) := by
        unfold calculateBatchCredits
        exact Finset.sum_Icc_succ_top (Nat.succ_le_succ (Nat.zero_le n)) _
      have hlow : (q1 : Int) * batchMarginal (n + 1)
          ≤ calculateBatchCredits q1 := by
        apply mul_le_calculateBatchCredits
        intro i hi
        apply batchMarginal_antitone
        simp only [Finset.mem_Icc] at hi
        omega
      have hcast : ((n + 1 : Nat) : Int) = (n : Int) + 1 := by push_cast; ring
      rw [hsum, hcast]
      nlinarith [ih, hlow]

/-- Claim C9: for all positive integer quantities q1 < q2, the batch
pricing function `calculateBatchCredits` (modelled from the spec: the
source definition lives in the absent `lib/pricing`) is monotonic
non-decreasing in quantity, and its average per-unit cost is
non-increasing. -/
theorem claim_C9_discount_monotonicity (q1 q2 : Nat) (h1 : 0 < q1)
    (h2 : q1 < q2) :
    calculateBatchCredits q1 ≤ calculateBatchCredits q2 ∧
    (calculateBatchCredits q1 : ℚ) / (q1 : ℚ)
      ≥ (calculateBatchCredits q2 : ℚ) / (q2 : ℚ) := by
  constructor
  · exact calculateBatchCredits_le_of_le h2.le
  · have hq1 : (0 : ℚ) < (q1 : ℚ) := by exact_mod_cast h1
    have hq2 : (0 : ℚ) < (q2 : ℚ) := by exact_mod_cast h1.trans h2
    rw [ge_iff_le, div_le_div_iff₀ hq2 hq1]
    have hx := calculateBatchCredits_cross q1 q2 h1 h2.le
    have hy : calculateBatchCredits q2 * (q1 : Int)
        ≤ calculateBatchCredits q1 * (q2 : Int) := by linarith [hx]
    exact_mod_cast hy

theorem claim_C9_witness :
    0 < (10 : Nat) ∧ (10 : Nat) < 30 ∧
    (calculateBatchCredits 10 ≤ calculateBatchCredits 30 ∧
      (calculateBatchCredits 10 : ℚ) / ((10 : Nat) : ℚ)
        ≥ (calculateBatchCredits 30 : ℚ) / ((30 : Nat) : ℚ)) :=
  ⟨by decide, by decide, claim_C9_discount_monotonicity 10 30 (by decide) (by decide)⟩
